import Mathlib

/-!
Shallow embedding of `src/sdks/js/src/managers/user.js` (the users manager
of the julep JS SDK): a base class `BaseUsersManager` that validates
identifiers and delegates to an injected `apiClient` collaborator, and a
facade class `UsersManager` presenting destructured argument objects with
defaults and unwrapping envelopes.

Promises are modelled by `Except`: a resolved promise is `.ok`, a rejected
one is `.error`.  A throw inside a method of an `async` class surfaces to
the caller as a failure as well, so both are `Except` errors, kept apart by
the `Failure` type so that locally thrown errors and propagated collaborator
rejections stay distinguishable.  Every manager operation also returns the
list of invocations it performed on the collaborator, in order, so that
"the collaborator is not invoked" and "invoked exactly once with these
arguments" are statable.
-/

namespace Julep

/-- A JavaScript value supplied as an identifier argument: either a string
or the `undefined` value (an absent parameter or missing object field). -/
inductive JsArg where
  | undef
  | str (s : String)
deriving DecidableEq

/-- A JavaScript value supplied as a pagination bound: the `undefined`
value, a number, or an arbitrary non-numeric value modelled by a string
tag.  The manager never inspects these values. -/
inductive PageArg where
  | undef
  | num (n : Int)
  | other (s : String)
deriving DecidableEq

/-- Is `c` a hexadecimal digit (0-9, a-f, A-F)? -/
def isHexDigit (c : Char) : Bool :=
  (decide (48 ≤ c.toNat) && decide (c.toNat ≤ 57)) ||
  (decide (97 ≤ c.toNat) && decide (c.toNat ≤ 102)) ||
  (decide (65 ≤ c.toNat) && decide (c.toNat ≤ 70))

/-- Character check at position `i` of a canonical version-4 UUID string:
hyphens at positions 8, 13, 18 and 23, the literal digit 4 at position 14,
a variant character among 8, 9, a, b at position 19, and hexadecimal digits
everywhere else. -/
def uuid4CharOk (i : Nat) (c : Char) : Bool :=
  if i = 8 ∨ i = 13 ∨ i = 18 ∨ i = 23 then decide (c = '-')
  else if i = 14 then decide (c = '4')
  else if i = 19 then
    decide (c = '8') || decide (c = '9') || decide (c = 'a') ||
      decide (c = 'b') || decide (c = 'A') || decide (c = 'B')
  else isHexDigit c

/-- Modelled from the spec: the syntactic well-formedness check of a
version-4 unique identifier, "a 128-bit value rendered in canonical textual
form", i.e. "standard hyphenated hexadecimal text form": 36 characters
shaped xxxxxxxx-xxxx-4xxx-yxxx-xxxxxxxxxxxx with y among 8, 9, a, b. -/
def isUuid4String (s : String) : Bool :=
  decide (s.length = 36) && s.toList.enum.all (fun p => uuid4CharOk p.1 p.2)

/-- Modelled from the spec: `isValidUuid4` comes from `managers/utils`,
whose source is not provided; per the spec it accepts exactly the
syntactically valid version-4 unique identifiers, so the `undefined` value
(not a string at all) is not valid. -/
def isValidUuid4 : JsArg → Bool
  | .undef => false
  | .str s => isUuid4String s

/-- Modelled from the spec: `CreateDoc`, the collaborator's prepared
document representation from the serialization layer (whose source is not
provided); it wraps the raw document dictionary. -/
structure CreateDoc (V : Type) where
  doc : V
deriving DecidableEq

/-- The payload object passed to the collaborator's `createUser`: fields
`name`, `about` and `docsPrepared` (`none` models a JS `undefined`). -/
structure CreateUserPayload (V : Type) where
  name : Option V
  about : Option V
  docsPrepared : List (CreateDoc V)
deriving DecidableEq

/-- The partial-update payload object passed to the collaborator's
`updateUser`: fields `about` and `name`, either possibly `undefined`. -/
structure UpdatePayload (V : Type) where
  about : Option V
  name : Option V
deriving DecidableEq

/-- Modelled from the spec: `ListUsersResponse`, the listing envelope from
the serialization layer (source not provided): an ordered sequence of users
plus pagination metadata echoed back. -/
structure ListUsersResponse (U : Type) where
  items : List U
  limit : PageArg
  offset : PageArg
deriving DecidableEq

/-- The JavaScript `null` value, the explicit result of `delete`. -/
inductive JsNull where
  | null
deriving DecidableEq

/-- A failure surfaced to the caller: either an `Error` thrown locally by
the manager (carrying its message), or a collaborator rejection propagated
with its value unmodified. -/
inductive Failure (E : Type) where
  | thrown (message : String)
  | rejected (e : E)
deriving DecidableEq

/-- A record of one invocation of the injected collaborator, with the
arguments it received. -/
inductive ApiCall (V : Type) where
  | getUser (id : JsArg)
  | createUser (payload : CreateUserPayload V)
  | listUsers (limit offset : PageArg)
  | deleteUser (id : JsArg)
  | updateUser (id : JsArg) (payload : UpdatePayload V)
deriving DecidableEq

/-- The injected collaborator (`apiClient`).  `V` is the type of scalar
payload values (names, abouts, raw docs), `E` the type of rejection values,
and `U`, `C`, `D`, `R` the result types of retrieval, creation, deletion
and update.  Each method either resolves or rejects. -/
structure ApiClient (V E U C D R : Type) where
  getUser : JsArg → Except E U
  createUser : CreateUserPayload V → Except E C
  listUsers : PageArg → PageArg → Except E (ListUsersResponse U)
  deleteUser : JsArg → Except E D
  updateUser : JsArg → UpdatePayload V → Except E R

/-- Outcome of a manager operation: the settled result together with the
sequence of collaborator invocations performed, in order. -/
abbrev MResult (V E ρ : Type) := Except (Failure E) ρ × List (ApiCall V)

/-- The `.catch((error) => Promise.reject(error))` combinator: forwards the
collaborator's result, re-raising a rejection with its value unmodified. -/
def forwardResult {E ρ : Type} : Except E ρ → Except (Failure E) ρ
  | .ok v => .ok v
  | .error e => .error (.rejected e)

/-- `BaseUsersManager._get` (user.js lines 22-27): reject non-UUID ids
before any collaborator interaction, else delegate to `getUser`. -/
def BaseUsersManager._get {V E U C D R : Type} (client : ApiClient V E U C D R)
    (id : JsArg) : MResult V E U :=
  if !isValidUuid4 id then
    (.error (.thrown "id must be a valid UUID v4"), [])
  else
    (forwardResult (client.getUser id), [.getUser id])

/-- `BaseUsersManager._create` (user.js lines 35-40): wrap each raw doc in
a `CreateDoc` and delegate to `createUser` with the assembled payload.  The
facade always passes the docs list explicitly, so the JS parameter default
`docs = []` of this method is modelled at the facade destructuring. -/
def BaseUsersManager._create {V E U C D R : Type} (client : ApiClient V E U C D R)
    (name about : Option V) (docs : List V) : MResult V E C :=
  let docsPrepared := docs.map (fun doc => CreateDoc.mk doc)
  (forwardResult (client.createUser ⟨name, about, docsPrepared⟩),
    [.createUser ⟨name, about, docsPrepared⟩])

/-- `BaseUsersManager._listItems` (user.js lines 47-51): delegate directly
to `listUsers` with the given bounds, with no validation. -/
def BaseUsersManager._listItems {V E U C D R : Type} (client : ApiClient V E U C D R)
    (limit offset : PageArg) : MResult V E (ListUsersResponse U) :=
  (forwardResult (client.listUsers limit offset), [.listUsers limit offset])

/-- `BaseUsersManager._delete` (user.js lines 57-64): reject non-UUID ids
before any collaborator interaction, else delegate to `deleteUser`. -/
def BaseUsersManager._delete {V E U C D R : Type} (client : ApiClient V E U C D R)
    (userId : JsArg) : MResult V E D :=
  if !isValidUuid4 userId then
    (.error (.thrown "id must be a valid UUID v4"), [])
  else
    (forwardResult (client.deleteUser userId), [.deleteUser userId])

/-- `BaseUsersManager._update` (user.js lines 72-79): reject non-UUID ids
before any collaborator interaction, else delegate to `updateUser` with the
partial payload. -/
def BaseUsersManager._update {V E U C D R : Type} (client : ApiClient V E U C D R)
    (userId : JsArg) (about name : Option V) : MResult V E R :=
  if !isValidUuid4 userId then
    (.error (.thrown "id must be a valid UUID v4"), [])
  else
    (forwardResult (client.updateUser userId ⟨about, name⟩),
      [.updateUser userId ⟨about, name⟩])

/-- `UsersManager.get` (user.js lines 87-89). -/
def UsersManager.get {V E U C D R : Type} (client : ApiClient V E U C D R)
    (id : JsArg) : MResult V E U :=
  BaseUsersManager._get client id

/-- The argument object of `UsersManager.create`; a `none` field models the
key being absent or holding `undefined`, which for `docs` triggers the
destructuring default `docs = []`. -/
structure CreateArgs (V : Type) where
  name : Option V
  about : Option V
  docs : Option (List V)

/-- `UsersManager.create` (user.js lines 97-99): destructure the argument
object, defaulting `docs` to the empty list, and delegate. -/
def UsersManager.create {V E U C D R : Type} (client : ApiClient V E U C D R)
    (args : CreateArgs V) : MResult V E C :=
  BaseUsersManager._create client args.name args.about (args.docs.getD [])

/-- The argument object of `UsersManager.list`; an `undef` field triggers
the corresponding destructuring default. -/
structure ListArgs where
  limit : PageArg
  offset : PageArg
deriving DecidableEq

/-- The destructuring default `limit = 100`: fires exactly when the
supplied field value is `undefined`. -/
def defaultedLimit : PageArg → PageArg
  | .undef => .num 100
  | v => v

/-- The destructuring default `offset = 0`: fires exactly when the
supplied field value is `undefined`. -/
def defaultedOffset : PageArg → PageArg
  | .undef => .num 0
  | v => v

/-- `UsersManager.list` (user.js lines 106-109): the whole argument object
defaults to the empty object when absent, the bounds default to 100 and 0,
and only the `items` field of the envelope is returned. -/
def UsersManager.list {V E U C D R : Type} (client : ApiClient V E U C D R)
    (args : Option ListArgs) : Except (Failure E) (List U) × List (ApiCall V) :=
  let a := args.getD ⟨.undef, .undef⟩
  match BaseUsersManager._listItems client (defaultedLimit a.limit)
      (defaultedOffset a.offset) with
  | (.ok response, calls) => (.ok response.items, calls)
  | (.error e, calls) => (.error e, calls)

/-- `UsersManager.delete` (user.js lines 115-118): await the base deletion,
then resolve with the explicit `null`, discarding the collaborator's
resolution value. -/
def UsersManager.delete {V E U C D R : Type} (client : ApiClient V E U C D R)
    (userId : JsArg) : Except (Failure E) JsNull × List (ApiCall V) :=
  match BaseUsersManager._delete client userId with
  | (.ok _, calls) => (.ok .null, calls)
  | (.error e, calls) => (.error e, calls)

/-- The argument object of `UsersManager.update`.  A JavaScript caller may
put any fields on this object; the implementation destructures only
`userId`, `about` and `name`.  The field `id` models callers that supply
the identifier under that key: the implementation never reads it. -/
structure UpdateArgs (V : Type) where
  id : JsArg
  userId : JsArg
  about : Option V
  name : Option V

/-- The empty object `= {}` used as the default argument of `update`:
every field lookup on it yields `undefined`. -/
def UpdateArgs.emptyObj {V : Type} : UpdateArgs V := ⟨.undef, .undef, none, none⟩

/-- `UsersManager.update` (user.js lines 126-128): the argument object
defaults to the empty object when absent; destructure `userId`, `about`,
`name` and delegate. -/
def UsersManager.update {V E U C D R : Type} (client : ApiClient V E U C D R)
    (args : Option (UpdateArgs V)) : MResult V E R :=
  let a := args.getD UpdateArgs.emptyObj
  BaseUsersManager._update client a.userId a.about a.name

/-- A concrete syntactically valid version-4 identifier used by witnesses. -/
def validUuid : String := "0a1b2c3d-0000-4000-8000-000000000000"

/-- A concrete collaborator whose every operation resolves; its deletion
result is deliberately non-null. -/
def demoClient : ApiClient String String String String String String :=
  ⟨fun _ => .ok "user-record",
   fun _ => .ok "created-response",
   fun _ _ => .ok ⟨["u1", "u2"], .num 7, .num 3⟩,
   fun _ => .ok "non-null-delete-result",
   fun _ _ => .ok "updated-response"⟩

/-- A concrete collaborator whose every operation rejects, each with a
distinct failure value. -/
def failClient : ApiClient String String String String String String :=
  ⟨fun _ => .error "boom-get",
   fun _ => .error "boom-create",
   fun _ _ => .error "boom-list",
   fun _ => .error "boom-delete",
   fun _ _ => .error "boom-update"⟩

/-- Claim C1: for every identifier argument that is not a syntactically
valid version-4 UUID, `get`, `delete` and `update` fail with the
InvalidArgument error (before any collaborator interaction: the trace of
collaborator invocations is empty). -/
theorem invalidId_failsWithoutCollaborator {V E U C D R : Type}
    (client : ApiClient V E U C D R) (id : JsArg)
    (h : isValidUuid4 id = false) :
    UsersManager.get client id =
        (.error (.thrown "id must be a valid UUID v4"), []) ∧
    UsersManager.delete client id =
        (.error (.thrown "id must be a valid UUID v4"), []) ∧
    ∀ (idField : JsArg) (about name : Option V),
      UsersManager.update client (some ⟨idField, id, about, name⟩) =
        (.error (.thrown "id must be a valid UUID v4"), []) := by
  refine ⟨?_, ?_, ?_⟩ <;>
    simp [UsersManager.get, UsersManager.delete, UsersManager.update,
      BaseUsersManager._get, BaseUsersManager._delete,
      BaseUsersManager._update, h]

/-- Claim C1 witness at the concrete non-UUID string "nope". -/
theorem invalidId_failsWithoutCollaborator_witness :
    UsersManager.get demoClient (.str "nope") =
        (.error (.thrown "id must be a valid UUID v4"), []) ∧
    UsersManager.delete demoClient (.str "nope") =
        (.error (.thrown "id must be a valid UUID v4"), []) ∧
    UsersManager.update demoClient (some ⟨.undef, .str "nope", none, none⟩) =
        (.error (.thrown "id must be a valid UUID v4"), []) := by
  have h := invalidId_failsWithoutCollaborator demoClient (.str "nope")
    (by decide)
  exact ⟨h.1, h.2.1, h.2.2 .undef none none⟩

/-- Claim C2 counterexample: calling `update` with the identifier under a
field named `id` (as the claim states) does not invoke the collaborator at
all and fails with the InvalidArgument error, because the implementation
destructures the field `userId`, which is absent here. -/
theorem update_idField_cex :
    UsersManager.update demoClient
        (some ⟨.str validUuid, .undef, some "new bio", none⟩) =
      (.error (.thrown "id must be a valid UUID v4"), []) := by rfl

/-- Claim C2 amended: calling `update` with the identifier supplied under
the field `userId` (the field the implementation destructures), `about` set
to the new bio and `name` absent, invokes the collaborator's `updateUser`
with `name` undefined and `about` unchanged, and resolves with the
collaborator's response unmodified. -/
theorem update_userIdField_passthrough {V E U C D R : Type}
    (client : ApiClient V E U C D R) (id : JsArg)
    (h : isValidUuid4 id = true) (ab : V) (r : R)
    (hr : client.updateUser id ⟨some ab, none⟩ = .ok r) :
    UsersManager.update client (some ⟨.undef, id, some ab, none⟩) =
      (.ok r, [.updateUser id ⟨some ab, none⟩]) := by
  simp [UsersManager.update, BaseUsersManager._update, h, hr, forwardResult]

/-- Claim C2 amended witness at a concrete valid identifier. -/
theorem update_userIdField_passthrough_witness :
    UsersManager.update demoClient
        (some ⟨.undef, .str validUuid, some "new bio", none⟩) =
      (.ok "updated-response",
        [.updateUser (.str validUuid) ⟨some "new bio", none⟩]) :=
  update_userIdField_passthrough demoClient (.str validUuid) (by decide)
    "new bio" "updated-response" rfl

/-- Claim C3: for every valid version-4 identifier, `get` resolves with
exactly the value the collaborator's `getUser` resolves with, unmodified
(and `getUser` is the one call performed). -/
theorem get_passthrough {V E U C D R : Type} (client : ApiClient V E U C D R)
    (id : JsArg) (h : isValidUuid4 id = true) (u : U)
    (hu : client.getUser id = .ok u) :
    UsersManager.get client id = (.ok u, [.getUser id]) := by
  simp [UsersManager.get, BaseUsersManager._get, h, hu, forwardResult]

/-- Claim C3 witness at a concrete valid identifier. -/
theorem get_passthrough_witness :
    UsersManager.get demoClient (.str validUuid) =
      (.ok "user-record", [.getUser (.str validUuid)]) :=
  get_passthrough demoClient (.str validUuid) (by decide) "user-record" rfl

/-- Claim C4: `create` invokes the collaborator's `createUser` exactly once
with the payload of `name`, `about` and one prepared document per input doc
in order; it resolves with the collaborator's response unmodified; and an
omitted `docs` field defaults to the empty sequence. -/
theorem create_preparesDocs {V E U C D R : Type}
    (client : ApiClient V E U C D R) (args : CreateArgs V) :
    (UsersManager.create client args).2 =
        [.createUser ⟨args.name, args.about,
          (args.docs.getD []).map (fun d => CreateDoc.mk d)⟩] ∧
    (∀ c : C,
      client.createUser ⟨args.name, args.about,
          (args.docs.getD []).map (fun d => CreateDoc.mk d)⟩ = .ok c →
        (UsersManager.create client args).1 = .ok c) ∧
    (UsersManager.create client ⟨args.name, args.about, none⟩).2 =
        [.createUser ⟨args.name, args.about, []⟩] := by
  refine ⟨rfl, ?_, rfl⟩
  intro c hc
  simp [UsersManager.create, BaseUsersManager._create, hc, forwardResult]

/-- Claim C4 witness: one input doc yields one prepared doc and the
response comes back unmodified. -/
theorem create_preparesDocs_witness :
    (UsersManager.create demoClient ⟨some "Ada", some "x", some ["d1"]⟩).2 =
        [.createUser ⟨some "Ada", some "x", [⟨"d1"⟩]⟩] ∧
    (UsersManager.create demoClient ⟨some "Ada", some "x", some ["d1"]⟩).1 =
        .ok "created-response" := by
  have h := create_preparesDocs demoClient ⟨some "Ada", some "x", some ["d1"]⟩
  exact ⟨h.1, h.2.1 "created-response" rfl⟩

/-- Claim C5: `list` with no argument invokes the collaborator's
`listUsers` with limit 100 and offset 0, and resolves with only the `items`
sequence of the returned envelope, discarding the pagination metadata. -/
theorem list_noArgs_defaults {V E U C D R : Type}
    (client : ApiClient V E U C D R) :
    (UsersManager.list client none).2 = [.listUsers (.num 100) (.num 0)] ∧
    ∀ response : ListUsersResponse U,
      client.listUsers (.num 100) (.num 0) = .ok response →
        (UsersManager.list client none).1 = .ok response.items := by
  constructor
  · cases hcall : client.listUsers (.num 100) (.num 0) <;>
      simp [UsersManager.list, BaseUsersManager._listItems, forwardResult,
        defaultedLimit, defaultedOffset, hcall]
  · intro response hresp
    simp [UsersManager.list, BaseUsersManager._listItems, forwardResult,
      defaultedLimit, defaultedOffset, hresp]

/-- Claim C5 witness: the demo envelope carries metadata 7 and 3, which is
discarded. -/
theorem list_noArgs_defaults_witness :
    (UsersManager.list demoClient none).2 =
        [.listUsers (.num 100) (.num 0)] ∧
    (UsersManager.list demoClient none).1 = .ok ["u1", "u2"] := by
  have h := list_noArgs_defaults demoClient
  exact ⟨h.1, h.2 ⟨["u1", "u2"], .num 7, .num 3⟩ rfl⟩

/-- Claim C6: for every valid version-4 identifier, when the collaborator's
`deleteUser` resolves with any value whatsoever, `delete` resolves with the
explicit `null`. -/
theorem delete_resolvesNull {V E U C D R : Type}
    (client : ApiClient V E U C D R) (id : JsArg)
    (h : isValidUuid4 id = true) (d : D)
    (hd : client.deleteUser id = .ok d) :
    UsersManager.delete client id = (.ok .null, [.deleteUser id]) := by
  simp [UsersManager.delete, BaseUsersManager._delete, h, hd, forwardResult]

/-- Claim C6 witness: the demo collaborator resolves deletion with a
non-null value, yet `delete` resolves with `null`. -/
theorem delete_resolvesNull_witness :
    demoClient.deleteUser (.str validUuid) = .ok "non-null-delete-result" ∧
    UsersManager.delete demoClient (.str validUuid) =
      (.ok .null, [.deleteUser (.str validUuid)]) :=
  ⟨rfl, delete_resolvesNull demoClient (.str validUuid) (by decide)
    "non-null-delete-result" rfl⟩

/-- Claim C7: every operation propagates a collaborator rejection to the
caller with the failure value unmodified (once local id validation, where
present, has passed). -/
theorem failures_propagate_unmodified {V E U C D R : Type}
    (client : ApiClient V E U C D R) (e : E) :
    (∀ id : JsArg, isValidUuid4 id = true → client.getUser id = .error e →
        (UsersManager.get client id).1 = .error (.rejected e)) ∧
    (∀ args : CreateArgs V,
        client.createUser ⟨args.name, args.about,
            (args.docs.getD []).map (fun d => CreateDoc.mk d)⟩ = .error e →
        (UsersManager.create client args).1 = .error (.rejected e)) ∧
    (∀ limit offset : PageArg,
        client.listUsers (defaultedLimit limit) (defaultedOffset offset) =
            .error e →
        (UsersManager.list client (some ⟨limit, offset⟩)).1 =
            .error (.rejected e)) ∧
    (∀ id : JsArg, isValidUuid4 id = true → client.deleteUser id = .error e →
        (UsersManager.delete client id).1 = .error (.rejected e)) ∧
    (∀ (idf uid : JsArg) (ab nm : Option V), isValidUuid4 uid = true →
        client.updateUser uid ⟨ab, nm⟩ = .error e →
        (UsersManager.update client (some ⟨idf, uid, ab, nm⟩)).1 =
            .error (.rejected e)) := by
  refine ⟨?_, ?_, ?_, ?_, ?_⟩
  · intro id h hcall
    simp [UsersManager.get, BaseUsersManager._get, h, hcall, forwardResult]
  · intro args hcall
    simp [UsersManager.create, BaseUsersManager._create, hcall, forwardResult]
  · intro limit offset hcall
    simp [UsersManager.list, BaseUsersManager._listItems, hcall, forwardResult]
  · intro id h hcall
    simp [UsersManager.delete, BaseUsersManager._delete, h, hcall,
      forwardResult]
  · intro idf uid ab nm h hcall
    simp [UsersManager.update, BaseUsersManager._update, h, hcall,
      forwardResult]

/-- Claim C7 witness: each operation of the failing collaborator rejects
with its own distinct failure value, surfaced unmodified. -/
theorem failures_propagate_unmodified_witness :
    (UsersManager.get failClient (.str validUuid)).1 =
        .error (.rejected "boom-get") ∧
    (UsersManager.create failClient ⟨some "Ada", none, none⟩).1 =
        .error (.rejected "boom-create") ∧
    (UsersManager.list failClient (some ⟨.num 5, .num 2⟩)).1 =
        .error (.rejected "boom-list") ∧
    (UsersManager.delete failClient (.str validUuid)).1 =
        .error (.rejected "boom-delete") ∧
    (UsersManager.update failClient
        (some ⟨.undef, .str validUuid, none, none⟩)).1 =
        .error (.rejected "boom-update") :=
  ⟨(failures_propagate_unmodified failClient "boom-get").1
      (.str validUuid) (by decide) rfl,
   (failures_propagate_unmodified failClient "boom-create").2.1
      ⟨some "Ada", none, none⟩ rfl,
   (failures_propagate_unmodified failClient "boom-list").2.2.1
      (.num 5) (.num 2) rfl,
   (failures_propagate_unmodified failClient "boom-delete").2.2.2.1
      (.str validUuid) (by decide) rfl,
   (failures_propagate_unmodified failClient "boom-update").2.2.2.2
      .undef (.str validUuid) none none (by decide) rfl⟩

/-- Claim C8: for every pair of pagination values, including negative or
non-numeric ones, `_listItems` delegates to `listUsers` with exactly those
values and never raises a locally thrown (InvalidArgument) error. -/
theorem listItems_noValidation {V E U C D R : Type}
    (client : ApiClient V E U C D R) (limit offset : PageArg) :
    BaseUsersManager._listItems client limit offset =
        (forwardResult (client.listUsers limit offset),
          [.listUsers limit offset]) ∧
    ∀ msg : String,
      (BaseUsersManager._listItems client limit offset).1 ≠
        .error (.thrown msg) := by
  refine ⟨rfl, ?_⟩
  intro msg
  cases hcall : client.listUsers limit offset <;>
    simp [BaseUsersManager._listItems, forwardResult, hcall]

/-- Claim C8 witness at a negative limit and a non-numeric offset. -/
theorem listItems_noValidation_witness :
    BaseUsersManager._listItems demoClient (.num (-5)) (.other "junk") =
        (forwardResult (demoClient.listUsers (.num (-5)) (.other "junk")),
          [.listUsers (.num (-5)) (.other "junk")]) ∧
    (BaseUsersManager._listItems demoClient (.num (-5)) (.other "junk")).1 ≠
        .error (.thrown "id must be a valid UUID v4") := by
  have h := listItems_noValidation demoClient (.num (-5)) (.other "junk")
  exact ⟨h.1, h.2 "id must be a valid UUID v4"⟩

/-- Claim C9: `create` never raises the InvalidArgument error: for every
combination of name, about and docs it invokes the collaborator's
`createUser` exactly once (the trace is that single call) and its result is
never a locally thrown error. -/
theorem create_neverInvalidArgument {V E U C D R : Type}
    (client : ApiClient V E U C D R) (args : CreateArgs V) :
    (UsersManager.create client args).2 =
        [.createUser ⟨args.name, args.about,
          (args.docs.getD []).map (fun d => CreateDoc.mk d)⟩] ∧
    ∀ msg : String,
      (UsersManager.create client args).1 ≠ .error (.thrown msg) := by
  refine ⟨rfl, ?_⟩
  intro msg
  cases hcall : client.createUser ⟨args.name, args.about,
      (args.docs.getD []).map (fun d => CreateDoc.mk d)⟩ <;>
    simp [UsersManager.create, BaseUsersManager._create, forwardResult, hcall]

/-- Claim C9 witness at entirely undefined fields. -/
theorem create_neverInvalidArgument_witness :
    (UsersManager.create demoClient ⟨none, none, none⟩).2 =
        [.createUser ⟨none, none, []⟩] ∧
    (UsersManager.create demoClient ⟨none, none, none⟩).1 ≠
        .error (.thrown "id must be a valid UUID v4") := by
  have h := create_neverInvalidArgument demoClient ⟨none, none, none⟩
  exact ⟨h.1, h.2 "id must be a valid UUID v4"⟩

/-- Claim C10: `update` with no argument at all defaults the argument
object to the empty object, so the extracted `userId` is undefined and the
call fails with the InvalidArgument error without any collaborator
invocation; and the single message "id must be a valid UUID v4" is the one
`get`, `delete` and `update` fail with on every invalid identifier. -/
theorem update_noArgs_sharedMessage {V E U C D R : Type}
    (client : ApiClient V E U C D R) :
    UsersManager.update client none =
        (.error (.thrown "id must be a valid UUID v4"), []) ∧
    ∀ id : JsArg, isValidUuid4 id = false →
      ((UsersManager.get client id).1 =
          .error (.thrown "id must be a valid UUID v4") ∧
       (UsersManager.delete client id).1 =
          .error (.thrown "id must be a valid UUID v4") ∧
       ∀ (idf : JsArg) (ab nm : Option V),
         (UsersManager.update client (some ⟨idf, id, ab, nm⟩)).1 =
            .error (.thrown "id must be a valid UUID v4")) := by
  refine ⟨rfl, ?_⟩
  intro id h
  refine ⟨?_, ?_, ?_⟩ <;>
    simp [UsersManager.get, UsersManager.delete, UsersManager.update,
      BaseUsersManager._get, BaseUsersManager._delete,
      BaseUsersManager._update, h]

/-- Claim C10 witness: no-argument update, and the shared message at the
concrete invalid identifier "xyz". -/
theorem update_noArgs_sharedMessage_witness :
    UsersManager.update demoClient none =
        (.error (.thrown "id must be a valid UUID v4"),
          ([] : List (ApiCall String))) ∧
    (UsersManager.get demoClient (.str "xyz")).1 =
        .error (.thrown "id must be a valid UUID v4") ∧
    (UsersManager.delete demoClient (.str "xyz")).1 =
        .error (.thrown "id must be a valid UUID v4") ∧
    (UsersManager.update demoClient
        (some ⟨.undef, .str "xyz", none, none⟩)).1 =
        .error (.thrown "id must be a valid UUID v4") := by
  have h := update_noArgs_sharedMessage demoClient
  have h2 := h.2 (.str "xyz") (by decide)
  exact ⟨h.1, h2.1, h2.2.1, h2.2.2 .undef none none⟩

end Julep
